/-
Verification of the PixooRadar core against its specification.

Shallow embedding of the relevant Python modules:
  * pixoo_radar/flight/filters.py   (flight candidate filtering / ranking)
  * pixoo_radar/render/common.py    (clipped Bresenham line drawing)
  * pixoo_radar/render/weather_view.py (active runway resolution, label placement)
  * weather_data.py                 (weather cache)
  * pixoo_radar/controller.py       (poll-cycle state machine)

Python floats are modelled as rationals (ℚ); machine floats only feed
comparisons and clamping here, so the rational model is exact for every
computation path the theorems talk about.  Transcendental functions
(sin/cos/asin/sqrt used by haversine_km and by the float heading->unit-vector
conversion) cannot be embedded exactly; the corresponding values enter the
embedding as explicit parameters, and every theorem about them is quantified
over all possible values of those parameters.
-/
import Mathlib

namespace PixooRadar

/-- Python `round` on an exact rational value: round half to even. -/
def pyRound (x : ℚ) : Int :=
  let f := ⌊x⌋
  let r := x - (f : ℚ)
  if r < 1/2 then f
  else if 1/2 < r then f + 1
  else if f % 2 = 0 then f else f + 1

/-- Python float modulo `x % m` for `m > 0`: `x - m * floor (x / m)`. -/
def qmod (x m : ℚ) : ℚ := x - m * (⌊x / m⌋ : ℚ)

/-- Python `max(0, min(limit, v))`, the canvas clamp used by the label placers. -/
def clampPos (limit v : Int) : Int := max 0 (min limit v)

/-! ## Flight candidate filtering (pixoo_radar/flight/filters.py)

A candidate record; only the fields read by the filters are modelled.
`none` models a Python `None` (or absent) attribute value. -/

structure Flight where
  airline_iata : Option String
  altitude : Option ℚ
  ground_speed : Option ℚ
  heading : Option ℚ
deriving DecidableEq

/-- `bool(getattr(flight, "airline_iata", None))`: `None` and `""` are falsy. -/
def has_airline_info (f : Flight) : Bool :=
  match f.airline_iata with
  | none => false
  | some s => !(s == "")

/-- `_to_float(getattr(flight, field, 0) or 0, default=0.0)` on a numeric-or-None
field: `None` falls back to `0`, a numeric value passes through. -/
def to_float_or_zero (v : Option ℚ) : ℚ := v.getD 0

/-- `heading_diff_deg`: smallest absolute angle difference in degrees. -/
def heading_diff_deg (a b : ℚ) : ℚ := |qmod (a - b + 180) 360 - 180|

/-- `_normalize_heading_deg` on a numeric-or-None value (rationals are always
finite, so the `isfinite` guard never fires in the model). -/
def normalize_heading_deg (v : Option ℚ) : Option ℚ :=
  match v with
  | none => none
  | some h => some (qmod h 360)

/-- `is_ground_target`: altitude (defaulted to 0) is at most 0. -/
def is_ground_target (f : Flight) : Bool :=
  decide (to_float_or_zero f.altitude ≤ 0)

/-- `is_stationary_ground_target`: on the ground and ground speed at most 0. -/
def is_stationary_ground_target (f : Flight) : Bool :=
  if !(is_ground_target f) then false
  else decide (to_float_or_zero f.ground_speed ≤ 0)

/-- `is_taxiing_ground_target`: a moving ground target whose heading does not
align (within tolerance) with the runway heading or its reciprocal.  A missing
heading counts as not aligned.  The runway heading argument is numeric, so its
normalization always succeeds. -/
def is_taxiing_ground_target (f : Flight) (runway_heading_deg tol : ℚ) : Bool :=
  if !(is_ground_target f) then false
  else if to_float_or_zero f.ground_speed ≤ 0 then false
  else
    match normalize_heading_deg f.heading with
    | none => true
    | some hd =>
      let rh := qmod runway_heading_deg 360
      let recip := qmod (rh + 180) 360
      let tolerance := max 0 tol
      !(decide (heading_diff_deg hd rh ≤ tolerance) ||
        decide (heading_diff_deg hd recip ≤ tolerance))

/-- The running statistics dictionary built by `choose_closest_flight`. -/
structure FlightStats where
  total : Nat
  missing_airline : Nat
  stationary_ground : Nat
  taxiing_ground : Nat
  distance_error : Nat
  usable : Nat
  selected_distance_km : Option ℚ
deriving DecidableEq

/-- Accumulator of the selection loop: winner so far, minimum distance so far
(`none` models the initial `float("inf")`), and the counters. -/
structure SelState where
  closest : Option Flight
  minDist : Option ℚ
  total : Nat
  missing_airline : Nat
  stationary_ground : Nat
  taxiing_ground : Nat
  distance_error : Nat
  usable : Nat
deriving DecidableEq

def initSelState : SelState :=
  { closest := none, minDist := none, total := 0, missing_airline := 0,
    stationary_ground := 0, taxiing_ground := 0, distance_error := 0, usable := 0 }

/-- One iteration of the `choose_closest_flight` loop.  `dist` abstracts
`haversine_km(latitude, longitude, flight.latitude, flight.longitude)`:
`some d` is a computed distance, `none` models the `except Exception` branch
(non-numeric coordinates). -/
def selStep (dist : Flight → Option ℚ) (rwy tol : ℚ) (st : SelState) (f : Flight) : SelState :=
  let st := { st with total := st.total + 1 }
  if !(has_airline_info f) then { st with missing_airline := st.missing_airline + 1 }
  else if is_stationary_ground_target f then
    { st with stationary_ground := st.stationary_ground + 1 }
  else if is_taxiing_ground_target f rwy tol then
    { st with taxiing_ground := st.taxiing_ground + 1 }
  else
    let st := { st with usable := st.usable + 1 }
    match dist f with
    | none => { st with distance_error := st.distance_error + 1 }
    | some d =>
      match st.minDist with
      | none => { st with closest := some f, minDist := some d }
      | some dmin =>
        if d < dmin then { st with closest := some f, minDist := some d } else st

/-- `choose_closest_flight(flights, ..., return_stats=True)`. -/
def choose_closest_flight (dist : Flight → Option ℚ) (flights : List Flight)
    (rwy tol : ℚ) : Option Flight × FlightStats :=
  let fin := flights.foldl (selStep dist rwy tol) initSelState
  (fin.closest,
   { total := fin.total, missing_airline := fin.missing_airline,
     stationary_ground := fin.stationary_ground, taxiing_ground := fin.taxiing_ground,
     distance_error := fin.distance_error, usable := fin.usable,
     selected_distance_km := match fin.closest with | some _ => fin.minDist | none => none })

/-- A candidate that survives every rejection rule of the selection loop. -/
def usableCandidate (f : Flight) (rwy tol : ℚ) : Bool :=
  has_airline_info f && !(is_stationary_ground_target f) && !(is_taxiing_ground_target f rwy tol)

/-! ## Clipped line drawing (pixoo_radar/render/common.py) -/

/-- `draw_px`: emit the pixel only when it lies on the 64x64 canvas. -/
def draw_px (x y : Int) : List (Int × Int) :=
  if 0 ≤ x ∧ x < 64 ∧ 0 ≤ y ∧ y < 64 then [(x, y)] else []

/-- Python `range(-radius, radius + 1)` for a nonnegative radius. -/
def squareOffsets (radius : Int) : List Int :=
  (List.range (2 * radius.toNat + 1)).map (fun k => -radius + (k : Int))

/-- The square of side `2*radius+1` stamped at a stepped point, in the order the
two nested Python loops emit it, filtered through `draw_px`. -/
def stampSquare (x0 y0 radius : Int) : List (Int × Int) :=
  (squareOffsets radius).flatMap fun ox =>
    (squareOffsets radius).flatMap fun oy => draw_px (x0 + ox) (y0 + oy)

/-- The Bresenham loop of `draw_line`, with explicit fuel.  Returns the emitted
pixels and whether the loop reached its exit condition within the fuel. -/
def drawLineAux (x1 y1 sx sy dx dy radius : Int) :
    Nat → Int → Int → Int → List (Int × Int) × Bool
  | 0, _, _, _ => ([], false)
  | fuel + 1, x0, y0, err =>
    let pts := stampSquare x0 y0 radius
    if x0 = x1 ∧ y0 = y1 then (pts, true)
    else
      let e2 := 2 * err
      let err1 := if dy ≤ e2 then err + dy else err
      let x0n := if dy ≤ e2 then x0 + sx else x0
      let err2 := if e2 ≤ dx then err1 + dx else err1
      let y0n := if e2 ≤ dx then y0 + sy else y0
      let rest := drawLineAux x1 y1 sx sy dx dy radius fuel x0n y0n err2
      (pts ++ rest.1, rest.2)

/-- `draw_line(x0, y0, x1, y1, thickness)` as the list of emitted pixels plus a
completion flag.  The fuel `|x1-x0| + |y1-y0| + 1` is an upper bound on the
number of loop iterations (theorem `draw_line_terminates`); `Int.fdiv` is
Python's floor division. -/
def draw_line (x0 y0 x1 y1 thickness : Int) : List (Int × Int) × Bool :=
  let dx := |x1 - x0|
  let sx : Int := if x0 < x1 then 1 else -1
  let dy := -|y1 - y0|
  let sy : Int := if y0 < y1 then 1 else -1
  let radius := max 0 (Int.fdiv (thickness - 1) 2)
  drawLineAux x1 y1 sx sy dx dy radius
    ((x1 - x0).natAbs + (y1 - y0).natAbs + 1) x0 y0 (dx + dy)

/-! ## Runway/wind view helpers (pixoo_radar/render/weather_view.py) -/

/-- `signed_angle_diff_deg` from render/common.py. -/
def signed_angle_diff_deg (a b : ℚ) : ℚ := qmod (a - b + 180) 360 - 180

/-- `normalize_wind_dir_deg` on a numeric-or-None wind direction. -/
def normalize_wind_dir_deg (v : Option ℚ) : Option ℚ :=
  match v with
  | none => none
  | some w => some (qmod w 360)

/-- `resolve_active_runway_heading(wind_dir_deg, runway_heading_deg)`. -/
def resolve_active_runway_heading (wind_dir_deg : Option ℚ) (runway_heading_deg : ℚ) :
    Option ℚ :=
  match normalize_wind_dir_deg wind_dir_deg with
  | none => none
  | some wind_from =>
    let reciprocal_heading := qmod (runway_heading_deg + 180) 360
    let diff_base := |signed_angle_diff_deg wind_from runway_heading_deg|
    let diff_recip := |signed_angle_diff_deg wind_from reciprocal_heading|
    some (if diff_base ≤ diff_recip then runway_heading_deg else reciprocal_heading)

/-- Modelled from the spec: the absolute circular angular difference between two
bearings, `min(d, 360 - d)` for `d = (a - b) mod 360`.  Used to compare the
code's tuned formula against the spec's notion of angular closeness. -/
def circDist (a b : ℚ) : ℚ := min (qmod (a - b) 360) (360 - qmod (a - b) 360)

/-- `score_label_placement`: minimum projected corner clearance from the canvas
center, and negated Manhattan distance of the label center to the anchor. -/
def score_label_placement (tx ty w h : Int) (nx ny ax ay : ℚ) : ℚ × ℚ :=
  let c1 : ℚ := |((tx : ℚ) - 32) * nx + ((ty : ℚ) - 32) * ny|
  let c2 : ℚ := |((tx : ℚ) + (w : ℚ) - 1 - 32) * nx + ((ty : ℚ) - 32) * ny|
  let c3 : ℚ := |((tx : ℚ) - 32) * nx + ((ty : ℚ) + (h : ℚ) - 1 - 32) * ny|
  let c4 : ℚ := |((tx : ℚ) + (w : ℚ) - 1 - 32) * nx + ((ty : ℚ) + (h : ℚ) - 1 - 32) * ny|
  let clearance := min (min (min c1 c2) c3) c4
  let anchor_dist := |((tx : ℚ) + (w : ℚ) / 2) - ax| + |((ty : ℚ) + (h : ℚ) / 2) - ay|
  (clearance, -anchor_dist)

/-- Python lexicographic tuple comparison `a > b` on pairs. -/
def pairGt (a b : ℚ × ℚ) : Bool :=
  decide (b.1 < a.1) || (decide (a.1 = b.1) && decide (b.2 < a.2))

/-- Python lexicographic tuple comparison `a < b` on triples. -/
def tripleLt (a b : ℚ × ℚ × ℚ) : Bool :=
  decide (a.1 < b.1) ||
    (decide (a.1 = b.1) &&
      (decide (a.2.1 < b.2.1) || (decide (a.2.1 = b.2.1) && decide (a.2.2 < b.2.2))))

/-- The `side`/`n_off`/`u_off` grid of `choose_axis_label_position`, in loop order. -/
def axisGrid : List (ℚ × ℚ × ℚ) :=
  ([1, -1] : List ℚ).flatMap fun side =>
    ([7, 9, 11] : List ℚ).flatMap fun noff =>
      ([-3, 0, 3] : List ℚ).map fun uoff => (side, noff, uoff)

/-- One iteration of the `choose_axis_label_position` search loop. -/
def axisStep (w h : Int) (ux uy ax ay : ℚ)
    (best : Option ((ℚ × ℚ) × Int × Int)) (c : ℚ × ℚ × ℚ) :
    Option ((ℚ × ℚ) × Int × Int) :=
  let nx := uy
  let ny := -ux
  let lx := ax + c.1 * c.2.1 * nx + c.2.2 * ux
  let ly := ay + c.1 * c.2.1 * ny + c.2.2 * uy
  let tx := clampPos (64 - w) (pyRound (lx - (w : ℚ) / 2))
  let ty := clampPos (64 - h) (pyRound (ly - (h : ℚ) / 2))
  let sc := score_label_placement tx ty w h nx ny ax ay
  match best with
  | none => some (sc, tx, ty)
  | some (bs, btx, bty) =>
    if pairGt sc bs then some (sc, tx, ty) else some (bs, btx, bty)

/-- The final nudge-and-clamp of `choose_axis_label_position` (the candidate
list is non-empty, so the `none` branch is unreachable). -/
def axisFinish (w h : Int) (best : Option ((ℚ × ℚ) × Int × Int)) : Int × Int :=
  match best with
  | some (_, tx, ty) => (clampPos (64 - w) (tx - 2), clampPos (64 - h) (ty + 1))
  | none => (0, 0)

/-- `choose_axis_label_position(label_w, label_h, axis_heading_deg, anchor)`.
The float unit vector `(sin θ, -cos θ)` of the axis heading is passed in as the
parameters `(ux, uy)`; every theorem quantifies over all values of them. -/
def choose_axis_label_position (w h : Int) (ux uy ax ay : ℚ) : Int × Int :=
  axisFinish w h (axisGrid.foldl (axisStep w h ux uy ax ay) none)

/-- One slab-clipping iteration of `segment_intersects_rect`; `none` is the
early `return False`. -/
def slabStep (st : ℚ × ℚ) (pq : ℚ × ℚ) : Option (ℚ × ℚ) :=
  if pq.1 = 0 then (if pq.2 < 0 then none else some st)
  else
    let t := pq.2 / pq.1
    if pq.1 < 0 then (if st.2 < t then none else some (max st.1 t, st.2))
    else (if t < st.1 then none else some (st.1, min st.2 t))

/-- `segment_intersects_rect(x0, y0, x1, y1, left, top, right, bottom)`. -/
def segment_intersects_rect (x0 y0 x1 y1 left top right bottom : ℚ) : Bool :=
  let dx := x1 - x0
  let dy := y1 - y0
  let pqs : List (ℚ × ℚ) :=
    [(-dx, x0 - left), (dx, right - x0), (-dy, y0 - top), (dy, bottom - y0)]
  (pqs.foldl (fun acc pq => acc.bind (fun st => slabStep st pq)) (some (0, 1))).isSome

/-- `label_overlaps_runway`: the runway center line against the label rectangle
expanded by half the stroke thickness plus padding. -/
def label_overlaps_runway (lx ly w h rx0 ry0 rx1 ry1 thickness padding : Int) : Bool :=
  let half_thickness := max 0 (Int.fdiv (thickness - 1) 2)
  let expand := half_thickness + max 0 padding
  segment_intersects_rect (rx0 : ℚ) (ry0 : ℚ) (rx1 : ℚ) (ry1 : ℚ)
    ((lx - expand : Int) : ℚ) ((ly - expand : Int) : ℚ)
    ((lx + w - 1 + expand : Int) : ℚ) ((ly + h - 1 + expand : Int) : ℚ)

/-- The `side`/`n_off`/`u_off` grid of `choose_wind_label_position.pick_best`. -/
def windGrid : List (ℚ × ℚ × ℚ) :=
  ([1, -1] : List ℚ).flatMap fun side =>
    ([4, 5, 6] : List ℚ).flatMap fun noff =>
      ([-2, 0, 2] : List ℚ).map fun uoff => (side, noff, uoff)

/-- One iteration of the `pick_best` loop inside `choose_wind_label_position`. -/
def windStep (w h : Int) (ux uy ax ay : ℚ) (seg : Option (Int × Int × Int × Int))
    (thickness : Int) (sideFilter : Option ℚ) (disallowOverlap : Bool)
    (best : Option ((ℚ × ℚ × ℚ) × Int × Int × ℚ)) (c : ℚ × ℚ × ℚ) :
    Option ((ℚ × ℚ × ℚ) × Int × Int × ℚ) :=
  let nx := uy
  let ny := -ux
  if sideFilter.isSome ∧ sideFilter ≠ some c.1 then best
  else
    let lx := ax + c.1 * c.2.1 * nx + c.2.2 * ux
    let ly := ay + c.1 * c.2.1 * ny + c.2.2 * uy
    let txRaw := pyRound (lx - (w : ℚ) / 2)
    let tyRaw := pyRound (ly - (h : ℚ) / 2)
    let tx := clampPos (64 - w) txRaw
    let ty := clampPos (64 - h) tyRaw
    let clearance := (score_label_placement tx ty w h nx ny ax ay).1
    if clearance < 2 then best
    else if disallowOverlap && (match seg with
           | some s => label_overlaps_runway tx ty w h s.1 s.2.1 s.2.2.1 s.2.2.2 thickness 1
           | none => false) then best
    else
      let clampPenalty : ℚ := ((|tx - txRaw| + |ty - tyRaw| : Int) : ℚ)
      let anchorDist := |((tx : ℚ) + (w : ℚ) / 2) - ax| + |((ty : ℚ) + (h : ℚ) / 2) - ay|
      let sc := (clampPenalty, anchorDist, -clearance)
      match best with
      | none => some (sc, tx, ty, c.1)
      | some (bs, btx, bty, bside) =>
        if tripleLt sc bs then some (sc, tx, ty, c.1) else some (bs, btx, bty, bside)

/-- The `pick_best` closure inside `choose_wind_label_position`. -/
def pickBest (w h : Int) (ux uy ax ay : ℚ) (seg : Option (Int × Int × Int × Int))
    (thickness : Int) (sideFilter : Option ℚ) (disallowOverlap : Bool) :
    Option ((ℚ × ℚ × ℚ) × Int × Int × ℚ) :=
  windGrid.foldl (windStep w h ux uy ax ay seg thickness sideFilter disallowOverlap) none

/-- `choose_wind_label_position`: place the wind label, retrying on the other
side of the arrow when the first choice overlaps the runway stroke. -/
def choose_wind_label_position (w h : Int) (ux uy ax ay : ℚ)
    (seg : Option (Int × Int × Int × Int)) (thickness : Int) : Int × Int :=
  match pickBest w h ux uy ax ay seg thickness none false with
  | none => choose_axis_label_position w h ux uy ax ay
  | some (_, tx, ty, side) =>
    if (match seg with
        | some s => label_overlaps_runway tx ty w h s.1 s.2.1 s.2.2.1 s.2.2.2 thickness 1
        | none => false) then
      match pickBest w h ux uy ax ay seg thickness (some (-side)) true with
      | some (_, tx2, ty2, _) => (tx2, ty2)
      | none =>
        match pickBest w h ux uy ax ay seg thickness (some (-side)) false with
        | some (_, tx2, ty2, _) => (tx2, ty2)
        | none => (tx, ty)
    else (tx, ty)

/-! ## Weather cache (weather_data.py) -/

/-- The normalized weather payload dictionary. -/
structure WPayload where
  temperature_c : Option ℚ
  condition : Option String
  humidity_pct : Option ℚ
  wind_kph : Option ℚ
  wind_dir_deg : Option ℚ
  wind_dir_from : Option ℚ
  wind_dir_to : Option ℚ
  location : Option String
  source : Option String
deriving DecidableEq

/-- `WeatherData._fallback_payload()`. -/
def fallback_payload : WPayload :=
  { temperature_c := none, condition := some "SET PROVIDER", humidity_pct := none,
    wind_kph := none, wind_dir_deg := none, wind_dir_from := none, wind_dir_to := none,
    location := some "LOCAL WX", source := some "scaffold" }

/-- Mutable state of a `WeatherData` instance: `_cache`, `_cache_at`, `_last_error`. -/
structure WState where
  cache : Option WPayload
  cacheAt : ℚ
  lastError : Option String
deriving DecidableEq

/-- The state right after `WeatherData.__init__`. -/
def initWeatherState : WState := { cache := none, cacheAt := 0, lastError := none }

/-- `self.refresh_seconds = max(30, int(refresh_seconds))`. -/
def refresh_seconds_of (raw : Int) : Int := max 30 raw

/-- Outcome of one `_fetch_raw` + `_normalize` round.  `ok` carries the
normalized payload and the partial-failure error `_fetch_raw` left in
`_last_error`; `empty` is a fetch whose normalization produced no data;
`raised` is an exception escaping `_fetch_raw` (both providers failed). -/
inductive FetchOutcome
  | ok (payload : WPayload) (partialError : Option String)
  | empty
  | raised (msg : String)
deriving DecidableEq

/-- `WeatherData.get_current_with_options(force_refresh)` at monotonic time
`now`, with the provider round's outcome supplied as `fetch`.  Returns
`((payload, refreshed), new state)`. -/
def get_current_with_options (refreshSeconds : Int) (st : WState) (forceRefresh : Bool)
    (now : ℚ) (fetch : FetchOutcome) : (WPayload × Bool) × WState :=
  if !forceRefresh ∧ st.cache.isSome ∧ now - st.cacheAt < (refreshSeconds : ℚ) then
    ((st.cache.getD fallback_payload, false), st)
  else
    match fetch with
    | .ok p pe => ((p, true), { cache := some p, cacheAt := now, lastError := pe })
    | .empty =>
      match st.cache with
      | some c => ((c, false), { st with lastError := some "Weather provider returned no data" })
      | none =>
        ((fallback_payload, true),
         { cache := some fallback_payload, cacheAt := now,
           lastError := some "Weather provider returned no data" })
    | .raised m =>
      match st.cache with
      | some c => ((c, false), { st with lastError := some ("Weather provider error: " ++ m) })
      | none =>
        ((fallback_payload, true),
         { cache := some fallback_payload, cacheAt := now,
           lastError := some ("Weather provider error: " ++ m) })

/-! ## Poll controller (pixoo_radar/controller.py)

`RenderState` from pixoo_radar/models.py.  The `idleHolding` member is the
`RenderState.IDLE_HOLDING` value that controller.py and the test suite use
(the models.py copy in the tree lags behind the controller). -/

inductive RenderState
  | flightActive
  | idleWeather
  | rateLimit
  | apiError
  | idleHolding
deriving DecidableEq

/-- The flight payload fields read by the controller's flight branch. -/
structure FPayload where
  icao24 : Option String
  altitude : Option ℚ
  ground_speed : Option ℚ
  heading : Option ℚ
  status : Option String
deriving DecidableEq

/-- `PixooRadarController.flight_render_signature(data)`. -/
def flight_render_signature (p : FPayload) : Option String × Int × Int × Int × String :=
  (p.icao24,
   pyRound (p.altitude.getD 0),
   pyRound (p.ground_speed.getD 0),
   pyRound (p.heading.getD 0),
   p.status.getD "")

/-- The settings fields the poll loop reads.  `idleModeWeather` models
`settings.idle_mode.lower() == "weather"`. -/
structure CSettings where
  dataRefreshSeconds : Int
  noFlightRetrySeconds : Int
  noFlightMaxRetrySeconds : Int
  idleModeWeather : Bool
deriving DecidableEq

/-- Controller tracking state mutated by `run_once`. -/
structure CState where
  currentState : Option RenderState
  currentFlightId : Option String
  currentFlightSig : Option (Option String × Int × Int × Int × String)
  noDataRetrySeconds : Int
deriving DecidableEq

/-- Outcome of one render call: normal return, or an exception with message. -/
inductive RenderOutcome
  | ok
  | raised (msg : String)
deriving DecidableEq

/-- `PixooRadarController._is_fatal_weather_error`. -/
def is_fatal_weather_error (msg : String) : Bool :=
  msg.startsWith "Weather bootstrap failed:" ||
    msg.startsWith "Weather startup validation failed:"

/-- Everything one poll cycle observes from the outside world: device
reachability, the flight-service poll result and its cooldown/error state, the
outcome of each render call the cycle might make, and whether a passive weather
cache read reported a refresh. -/
structure CycleEnv where
  reachable : Bool
  flight : Option FPayload
  cooldown : Int
  apiError : Option String
  animationOutcome : RenderOutcome
  transitionOutcome : RenderOutcome
  tickOutcome : RenderOutcome
  tickRefreshed : Bool
deriving DecidableEq

/-- Externally visible actions of one poll cycle, in program order. -/
inductive Effect
  | animationRender (p : FPayload)
  | weatherRender
  | holdingRender (status : String)
  | sleepFor (seconds : Int)
  | reconnectDevice
deriving DecidableEq

/-- Python truthiness of an optional string (`None` and `""` are falsy). -/
def strTruthy (s : Option String) : Bool :=
  match s with
  | none => false
  | some v => !(v == "")

/-- `PixooRadarController.resolve_target_state`. -/
def resolve_target_state (cfg : CSettings) (cooldown : Int) (apiError : Option String) :
    RenderState :=
  if 0 < cooldown then .rateLimit
  else if strTruthy apiError then .apiError
  else if cfg.idleModeWeather then .idleWeather
  else .idleHolding

/-- `PixooRadarController.reset_tracking` (also run by `reconnect`). -/
def reset_tracking (cfg : CSettings) : CState :=
  { currentState := none, currentFlightId := none, currentFlightSig := none,
    noDataRetrySeconds := cfg.noFlightRetrySeconds }

/-- The render performed by `handle_state_transition` for a target state. -/
def renderEffectFor : RenderState → Effect
  | .idleWeather => .weatherRender
  | .rateLimit => .holdingRender "RATE LIMIT"
  | .apiError => .holdingRender "API ERROR"
  | _ => .holdingRender "NO FLIGHTS"

/-- `PixooRadarController.run_once`, as a function from tracking state and the
cycle's observations to either a fatal propagated error or the new tracking
state plus the cycle's effects. -/
def run_once (cfg : CSettings) (st : CState) (env : CycleEnv) :
    Except String (CState × List Effect) :=
  if !env.reachable then
    .ok (reset_tracking cfg, [.reconnectDevice])
  else
    match env.flight with
    | some p =>
      let st1 : CState :=
        { st with noDataRetrySeconds := cfg.noFlightRetrySeconds,
                  currentState := some RenderState.flightActive }
      let newSig := flight_render_signature p
      if p.icao24 = st.currentFlightId then
        if some newSig = st.currentFlightSig then
          .ok (st1, [.sleepFor cfg.dataRefreshSeconds])
        else
          let st2 := { st1 with currentFlightId := p.icao24, currentFlightSig := some newSig }
          match env.animationOutcome with
          | .raised _ => .ok (reset_tracking cfg, [.animationRender p, .reconnectDevice])
          | .ok => .ok (st2, [.animationRender p, .sleepFor cfg.dataRefreshSeconds])
      else
        -- the mis-indented refactor: a *new* flight id falls through with no
        -- redraw and no identity/signature update
        .ok (st1, [.sleepFor cfg.dataRefreshSeconds])
    | none =>
      let retry := max st.noDataRetrySeconds env.cooldown
      let target := resolve_target_state cfg env.cooldown env.apiError
      if some target = st.currentState then
        if target = RenderState.idleWeather ∧ env.tickRefreshed then
          match env.tickOutcome with
          | .raised m =>
            if is_fatal_weather_error m then .error m
            else .ok (reset_tracking cfg, [.weatherRender, .reconnectDevice])
          | .ok =>
            .ok
              ({ st with
                  noDataRetrySeconds :=
                    min (st.noDataRetrySeconds * 2) cfg.noFlightMaxRetrySeconds },
               [.weatherRender, .sleepFor retry])
        else
          .ok
            ({ st with
                noDataRetrySeconds :=
                  min (st.noDataRetrySeconds * 2) cfg.noFlightMaxRetrySeconds },
             [.sleepFor retry])
      else
        match env.transitionOutcome with
        | .raised m =>
          if is_fatal_weather_error m then .error m
          else .ok (reset_tracking cfg, [renderEffectFor target, .reconnectDevice])
        | .ok =>
          .ok ({ currentState := some target, currentFlightId := none,
                 currentFlightSig := none,
                 noDataRetrySeconds :=
                   min (st.noDataRetrySeconds * 2) cfg.noFlightMaxRetrySeconds },
               [renderEffectFor target, .sleepFor retry])

/-- Count the `build_and_send_animation` calls among a cycle's effects. -/
def animationCalls (effs : List Effect) : Nat :=
  (effs.filter fun e => match e with | .animationRender _ => true | _ => false).length

/-- Proof-support predicate: the winner/minimum pair of the selection loop is
either still empty or a usable candidate together with its computed distance. -/
def selGood (dist : Flight → Option ℚ) (rwy tol : ℚ) (st : SelState) : Prop :=
  (st.closest = none ∧ st.minDist = none) ∨
  (∃ f d, st.closest = some f ∧ st.minDist = some d ∧
    usableCandidate f rwy tol = true ∧ dist f = some d)

/-- Proof-support predicate: every candidate stored by the wind-label search is
already clamped onto the canvas. -/
def windBestInv (w h : Int) (best : Option ((ℚ × ℚ × ℚ) × Int × Int × ℚ)) : Prop :=
  match best with
  | none => True
  | some (_, tx, ty, _) => 0 ≤ tx ∧ tx ≤ 64 - w ∧ 0 ≤ ty ∧ ty ≤ 64 - h

/-! # Theorems -/

theorem foldl_preserve {α β : Type _} (P : α → Prop) (f : α → β → α) (l : List β)
    (init : α) (h0 : P init) (hstep : ∀ a b, P a → P (f a b)) : P (l.foldl f init) := by
  induction l generalizing init with
  | nil => exact h0
  | cons x xs ih => exact ih (f init x) (hstep init x h0)

theorem clampPos_bounds (limit v : Int) (h : 0 ≤ limit) :
    0 ≤ clampPos limit v ∧ clampPos limit v ≤ limit :=
  ⟨le_max_left 0 _, max_le h (min_le_left _ _)⟩

theorem axisFinish_bounds (w h : Int) (hw : w ≤ 64) (hh : h ≤ 64)
    (best : Option ((ℚ × ℚ) × Int × Int)) :
    0 ≤ (axisFinish w h best).1 ∧ (axisFinish w h best).1 ≤ 64 - w ∧
    0 ≤ (axisFinish w h best).2 ∧ (axisFinish w h best).2 ≤ 64 - h := by
  rcases best with _ | ⟨sc, tx, ty⟩
  · simp only [axisFinish]
    omega
  · simp only [axisFinish, clampPos]
    omega

theorem choose_axis_label_position_bounds (w h : Int) (hw : w ≤ 64) (hh : h ≤ 64)
    (ux uy ax ay : ℚ) :
    0 ≤ (choose_axis_label_position w h ux uy ax ay).1 ∧
    (choose_axis_label_position w h ux uy ax ay).1 ≤ 64 - w ∧
    0 ≤ (choose_axis_label_position w h ux uy ax ay).2 ∧
    (choose_axis_label_position w h ux uy ax ay).2 ≤ 64 - h :=
  axisFinish_bounds w h hw hh _

theorem windStep_preserves_inv (w h : Int) (hw : w ≤ 64) (hh : h ≤ 64)
    (ux uy ax ay : ℚ) (seg : Option (Int × Int × Int × Int)) (thickness : Int)
    (sideFilter : Option ℚ) (disallowOverlap : Bool)
    (best : Option ((ℚ × ℚ × ℚ) × Int × Int × ℚ)) (c : ℚ × ℚ × ℚ)
    (hb : windBestInv w h best) :
    windBestInv w h (windStep w h ux uy ax ay seg thickness sideFilter disallowOverlap best c) := by
  dsimp only [windStep]
  split
  · exact hb
  · split
    · exact hb
    · split
      · exact hb
      · split
        · exact ⟨(clampPos_bounds _ _ (by omega)).1, (clampPos_bounds _ _ (by omega)).2,
                 (clampPos_bounds _ _ (by omega)).1, (clampPos_bounds _ _ (by omega)).2⟩
        · split
          · exact ⟨(clampPos_bounds _ _ (by omega)).1, (clampPos_bounds _ _ (by omega)).2,
                   (clampPos_bounds _ _ (by omega)).1, (clampPos_bounds _ _ (by omega)).2⟩
          · exact hb

theorem pickBest_inv (w h : Int) (hw : w ≤ 64) (hh : h ≤ 64)
    (ux uy ax ay : ℚ) (seg : Option (Int × Int × Int × Int)) (thickness : Int)
    (sideFilter : Option ℚ) (disallowOverlap : Bool) :
    windBestInv w h (pickBest w h ux uy ax ay seg thickness sideFilter disallowOverlap) :=
  foldl_preserve (windBestInv w h) _ windGrid none trivial
    (fun a b hb => windStep_preserves_inv w h hw hh ux uy ax ay seg thickness
      sideFilter disallowOverlap a b hb)

/-- C6: for every label size 1..64 in each dimension, every heading unit vector
and every anchor (also outside the canvas), both `choose_axis_label_position`
and `choose_wind_label_position` return a top-left corner `(x, y)` with
`0 ≤ x ≤ 64 - w` and `0 ≤ y ≤ 64 - h`. -/
theorem label_positions_stay_on_canvas (w h : Int) (ux uy ax ay : ℚ)
    (seg : Option (Int × Int × Int × Int)) (thickness : Int)
    (hw1 : 1 ≤ w) (hw2 : w ≤ 64) (hh1 : 1 ≤ h) (hh2 : h ≤ 64) :
    (0 ≤ (choose_axis_label_position w h ux uy ax ay).1 ∧
     (choose_axis_label_position w h ux uy ax ay).1 ≤ 64 - w ∧
     0 ≤ (choose_axis_label_position w h ux uy ax ay).2 ∧
     (choose_axis_label_position w h ux uy ax ay).2 ≤ 64 - h) ∧
    (0 ≤ (choose_wind_label_position w h ux uy ax ay seg thickness).1 ∧
     (choose_wind_label_position w h ux uy ax ay seg thickness).1 ≤ 64 - w ∧
     0 ≤ (choose_wind_label_position w h ux uy ax ay seg thickness).2 ∧
     (choose_wind_label_position w h ux uy ax ay seg thickness).2 ≤ 64 - h) := by
  refine ⟨choose_axis_label_position_bounds w h hw2 hh2 ux uy ax ay, ?_⟩
  unfold choose_wind_label_position
  have h0 := pickBest_inv w h hw2 hh2 ux uy ax ay seg thickness none false
  have h1 := pickBest_inv w h hw2 hh2 ux uy ax ay seg thickness
  split
  · exact choose_axis_label_position_bounds w h hw2 hh2 ux uy ax ay
  · rename_i best sc tx ty side heq
    rw [heq] at h0
    split
    · have h2 := h1 (some (-side)) true
      split
      · rename_i best2 sc2 tx2 ty2 side2 heq2
        rw [heq2] at h2
        exact h2
      · have h3 := h1 (some (-side)) false
        split
        · rename_i best3 sc3 tx3 ty3 side3 heq3
          rw [heq3] at h3
          exact h3
        · exact h0
    · exact h0

/-- Witness for C6 at a concrete label size, heading vector and anchor. -/
theorem label_positions_stay_on_canvas_witness :
    (0 ≤ (choose_axis_label_position 10 7 0 1 32 32).1 ∧
     (choose_axis_label_position 10 7 0 1 32 32).1 ≤ 64 - 10 ∧
     0 ≤ (choose_axis_label_position 10 7 0 1 32 32).2 ∧
     (choose_axis_label_position 10 7 0 1 32 32).2 ≤ 64 - 7) ∧
    (0 ≤ (choose_wind_label_position 10 7 0 1 32 32 (some (20, 20, 44, 44)) 7).1 ∧
     (choose_wind_label_position 10 7 0 1 32 32 (some (20, 20, 44, 44)) 7).1 ≤ 64 - 10 ∧
     0 ≤ (choose_wind_label_position 10 7 0 1 32 32 (some (20, 20, 44, 44)) 7).2 ∧
     (choose_wind_label_position 10 7 0 1 32 32 (some (20, 20, 44, 44)) 7).2 ≤ 64 - 7) :=
  label_positions_stay_on_canvas 10 7 0 1 32 32 (some (20, 20, 44, 44)) 7
    (by decide) (by decide) (by decide) (by decide)

theorem qmod_eq_mul_fract (x m : ℚ) (hm : m ≠ 0) : qmod x m = m * Int.fract (x / m) := by
  unfold qmod
  rw [Int.fract]
  field_simp

theorem qmod_nonneg (x m : ℚ) (hm : 0 < m) : 0 ≤ qmod x m := by
  rw [qmod_eq_mul_fract x m hm.ne.symm]
  exact mul_nonneg hm.le (Int.fract_nonneg _)

theorem qmod_lt (x m : ℚ) (hm : 0 < m) : qmod x m < m := by
  rw [qmod_eq_mul_fract x m hm.ne.symm]
  calc m * Int.fract (x / m) < m * 1 := by
        exact mul_lt_mul_of_pos_left (Int.fract_lt_one _) hm
    _ = m := mul_one m

theorem qmod_add_int_mul (x m : ℚ) (k : ℤ) : qmod (x + m * (k : ℚ)) m = qmod x m := by
  unfold qmod
  by_cases hm : m = 0
  · simp [hm]
  · have harg : (x + m * (k : ℚ)) / m = x / m + (k : ℚ) := by
      field_simp
      ring
    rw [harg, Int.floor_add_int]
    push_cast
    ring

theorem qmod_of_bounds (x m : ℚ) (h0 : 0 ≤ x) (h1 : x < m) : qmod x m = x := by
  unfold qmod
  have hm : 0 < m := lt_of_le_of_lt h0 h1
  have hz : ⌊x / m⌋ = 0 := by
    rw [Int.floor_eq_zero_iff, Set.mem_Ico]
    exact ⟨div_nonneg h0 hm.le, (div_lt_one hm).2 h1⟩
  rw [hz]
  simp

theorem qmod_add_half (x : ℚ) :
    qmod (x + 180) 360 = if qmod x 360 < 180 then qmod x 360 + 180 else qmod x 360 - 180 := by
  have h0 : (0 : ℚ) ≤ qmod x 360 := qmod_nonneg x 360 (by norm_num)
  have h1 : qmod x 360 < 360 := qmod_lt x 360 (by norm_num)
  by_cases hc : qmod x 360 < 180
  · rw [if_pos hc]
    have harg : x + 180 = (qmod x 360 + 180) + 360 * ((⌊x / 360⌋ : ℤ) : ℚ) := by
      unfold qmod
      ring
    rw [harg, qmod_add_int_mul, qmod_of_bounds _ _ (by linarith) (by linarith)]
  · rw [if_neg hc]
    have harg : x + 180 = (qmod x 360 - 180) + 360 * ((⌊x / 360⌋ + 1 : ℤ) : ℚ) := by
      unfold qmod
      push_cast
      ring
    rw [harg, qmod_add_int_mul,
      qmod_of_bounds _ _ (by linarith [not_lt.1 hc]) (by linarith)]

theorem abs_sad_eq_circDist (a b : ℚ) : |signed_angle_diff_deg a b| = circDist a b := by
  unfold signed_angle_diff_deg circDist
  have h0 : (0 : ℚ) ≤ qmod (a - b) 360 := qmod_nonneg _ 360 (by norm_num)
  have h1 : qmod (a - b) 360 < 360 := qmod_lt _ 360 (by norm_num)
  rw [qmod_add_half (a - b)]
  by_cases hc : qmod (a - b) 360 < 180
  · rw [if_pos hc]
    have he : qmod (a - b) 360 + 180 - 180 = qmod (a - b) 360 := by ring
    rw [he, abs_of_nonneg h0, min_eq_left (by linarith)]
  · rw [if_neg hc]
    have hge := not_lt.1 hc
    have he : qmod (a - b) 360 - 180 - 180 = qmod (a - b) 360 - 360 := by ring
    rw [he, abs_of_nonpos (by linarith), min_eq_right (by linarith)]
    ring

theorem sad_normalize_left (w b : ℚ) :
    signed_angle_diff_deg (qmod w 360) b = signed_angle_diff_deg w b := by
  unfold signed_angle_diff_deg
  have harg : qmod w 360 - b + 180 = (w - b + 180) + 360 * ((-⌊w / 360⌋ : ℤ) : ℚ) := by
    unfold qmod
    push_cast
    ring
  rw [harg, qmod_add_int_mul]

/-- C7: `resolve_active_runway_heading` picks whichever of the runway heading
and its reciprocal is circularly closer to the wind-from direction (ties to the
base heading), returns `290` for wind `280` over runway `110`, and returns
`none` exactly when the wind direction is absent. -/
theorem active_runway_heading_spec (w r : ℚ) :
    (resolve_active_runway_heading none r = none ∧
     (resolve_active_runway_heading (some w) r).isSome) ∧
    (circDist w r < circDist w (qmod (r + 180) 360) →
      resolve_active_runway_heading (some w) r = some r) ∧
    (circDist w (qmod (r + 180) 360) < circDist w r →
      resolve_active_runway_heading (some w) r = some (qmod (r + 180) 360)) ∧
    (circDist w r = circDist w (qmod (r + 180) 360) →
      resolve_active_runway_heading (some w) r = some r) ∧
    resolve_active_runway_heading (some 280) 110 = some 290 := by
  have key : ∀ b : ℚ, |signed_angle_diff_deg (qmod w 360) b| = circDist w b := by
    intro b
    rw [sad_normalize_left, abs_sad_eq_circDist]
  have hresolve : resolve_active_runway_heading (some w) r =
      some (if circDist w r ≤ circDist w (qmod (r + 180) 360) then r
            else qmod (r + 180) 360) := by
    simp only [resolve_active_runway_heading, normalize_wind_dir_deg]
    rw [key r, key (qmod (r + 180) 360)]
  refine ⟨⟨rfl, by rw [hresolve]; rfl⟩, ?_, ?_, ?_, ?_⟩
  · intro hlt
    rw [hresolve, if_pos hlt.le]
  · intro hlt
    rw [hresolve, if_neg (not_le.2 hlt)]
  · intro heqd
    rw [hresolve, if_pos heqd.le]
  · have e1 : qmod ((110 : ℚ) + 180) 360 = 290 := by
      rw [show (110 : ℚ) + 180 = 290 by norm_num]
      exact qmod_of_bounds _ _ (by norm_num) (by norm_num)
    have e2 : qmod (280 : ℚ) 360 = 280 := qmod_of_bounds _ _ (by norm_num) (by norm_num)
    have e3 : qmod ((280 : ℚ) - 110 + 180) 360 = 350 := by
      rw [show (280 : ℚ) - 110 + 180 = 350 by norm_num]
      exact qmod_of_bounds _ _ (by norm_num) (by norm_num)
    have e4 : qmod ((280 : ℚ) - 290 + 180) 360 = 170 := by
      rw [show (280 : ℚ) - 290 + 180 = 170 by norm_num]
      exact qmod_of_bounds _ _ (by norm_num) (by norm_num)
    simp only [resolve_active_runway_heading, normalize_wind_dir_deg, signed_angle_diff_deg]
    rw [e2, e1]
    simp only [e3, e4]
    norm_num

/-- Witness for C7 at wind 100 over runway 110 (base heading circularly closer). -/
theorem active_runway_heading_spec_witness :
    resolve_active_runway_heading (some 100) 110 = some 110 := by
  have h := (active_runway_heading_spec 100 110).2.1
  apply h
  have e1 : qmod ((110 : ℚ) + 180) 360 = 290 := by
    rw [show (110 : ℚ) + 180 = 290 by norm_num]
    exact qmod_of_bounds _ _ (by norm_num) (by norm_num)
  rw [e1]
  unfold circDist
  have e2 : qmod ((100 : ℚ) - 110) 360 = 350 := by
    rw [show (100 : ℚ) - 110 = 350 + 360 * ((-1 : ℤ) : ℚ) by norm_num, qmod_add_int_mul]
    exact qmod_of_bounds _ _ (by norm_num) (by norm_num)
  have e3 : qmod ((100 : ℚ) - 290) 360 = 170 := by
    rw [show (100 : ℚ) - 290 = 170 + 360 * ((-1 : ℤ) : ℚ) by norm_num, qmod_add_int_mul]
    exact qmod_of_bounds _ _ (by norm_num) (by norm_num)
  rw [e2, e3]
  norm_num

theorem draw_px_mem (x y : Int) (p : Int × Int) (hp : p ∈ draw_px x y) :
    0 ≤ p.1 ∧ p.1 ≤ 63 ∧ 0 ≤ p.2 ∧ p.2 ≤ 63 := by
  unfold draw_px at hp
  split at hp
  · rename_i hcond
    rw [List.mem_singleton] at hp
    subst hp
    omega
  · cases hp

theorem stampSquare_mem (x0 y0 r : Int) (p : Int × Int) (hp : p ∈ stampSquare x0 y0 r) :
    0 ≤ p.1 ∧ p.1 ≤ 63 ∧ 0 ≤ p.2 ∧ p.2 ≤ 63 := by
  unfold stampSquare at hp
  rw [List.mem_flatMap] at hp
  obtain ⟨ox, _, hp⟩ := hp
  rw [List.mem_flatMap] at hp
  obtain ⟨oy, _, hp⟩ := hp
  exact draw_px_mem _ _ p hp

theorem drawLineAux_mem (x1 y1 sx sy dx dy radius : Int) :
    ∀ (fuel : Nat) (x0 y0 err : Int),
      ∀ p ∈ (drawLineAux x1 y1 sx sy dx dy radius fuel x0 y0 err).1,
        0 ≤ p.1 ∧ p.1 ≤ 63 ∧ 0 ≤ p.2 ∧ p.2 ≤ 63 := by
  intro fuel
  induction fuel with
  | zero => intro x0 y0 err p hp; cases hp
  | succ n ih =>
    intro x0 y0 err p hp
    simp only [drawLineAux] at hp
    split at hp
    · exact stampSquare_mem x0 y0 radius p hp
    · rw [List.mem_append] at hp
      rcases hp with hp | hp
      · exact stampSquare_mem x0 y0 radius p hp
      · exact ih _ _ _ p hp

/-- C8: every pixel emitted by `draw_line` lies on the 0..63 canvas, for all
integer endpoints (also off-canvas ones) and every thickness; out-of-canvas
pixels of each stamped square are silently dropped by `draw_px`. -/
theorem draw_line_pixels_on_canvas (x0 y0 x1 y1 thickness : Int) :
    ∀ p ∈ (draw_line x0 y0 x1 y1 thickness).1,
      0 ≤ p.1 ∧ p.1 ≤ 63 ∧ 0 ≤ p.2 ∧ p.2 ≤ 63 := by
  intro p hp
  unfold draw_line at hp
  exact drawLineAux_mem _ _ _ _ _ _ _ _ _ _ _ p hp

/-- Witness for C8: a concrete emitted pixel of a concrete line is on canvas. -/
theorem draw_line_pixels_on_canvas_witness :
    0 ≤ ((2, 0) : Int × Int).1 ∧ ((2, 0) : Int × Int).1 ≤ 63 ∧
    0 ≤ ((2, 0) : Int × Int).2 ∧ ((2, 0) : Int × Int).2 ≤ 63 :=
  draw_line_pixels_on_canvas (-1) 0 70 0 1 (2, 0) (by decide)

theorem drawLineAux_completes (x1 y1 sx sy dx D radius : Int)
    (hsx : sx = 1 ∨ sx = -1) (hsy : sy = 1 ∨ sy = -1) (hdx : 0 ≤ dx) (hD : 0 ≤ D) :
    ∀ (fuel : Nat) (x0 y0 err a b : Int),
      a = sx * (x1 - x0) → b = sy * (y1 - y0) →
      0 ≤ a → a ≤ dx → 0 ≤ b → b ≤ D →
      err = (D - b + 1) * dx - (dx - a + 1) * D →
      a.toNat + b.toNat < fuel →
      (drawLineAux x1 y1 sx sy dx (-D) radius fuel x0 y0 err).2 = true := by
  have hsx2 : sx * sx = 1 := by rcases hsx with rfl | rfl <;> norm_num
  have hsy2 : sy * sy = 1 := by rcases hsy with rfl | rfl <;> norm_num
  intro fuel
  induction fuel with
  | zero => intro x0 y0 err a b _ _ _ _ _ _ _ hf; omega
  | succ n ih =>
    intro x0 y0 err a b ha hb ha0 ha1 hb0 hb1 herr hf
    by_cases hdone : x0 = x1 ∧ y0 = y1
    · simp [drawLineAux, hdone]
    · have hxa : x0 = x1 ↔ a = 0 := by
        rcases hsx with rfl | rfl <;> constructor <;> intro hz <;> omega
      have hyb : y0 = y1 ↔ b = 0 := by
        rcases hsy with rfl | rfl <;> constructor <;> intro hz <;> omega
      have hnz : ¬(a = 0 ∧ b = 0) := by
        intro hz
        exact hdone ⟨hxa.2 hz.1, hyb.2 hz.2⟩
      -- no-overshoot facts
      have hstepx : -D ≤ 2 * err → 1 ≤ a := by
        intro hcx
        by_contra hlt
        have haz : a = 0 := by omega
        have hbge : 1 ≤ b := by
          rcases Int.lt_or_le 0 b with hh | hh
          · omega
          · exact absurd ⟨haz, by omega⟩ hnz
        have hid : 2 * err + D = 2 * (dx * (1 - b)) - D := by
          rw [herr, haz]
          ring
        have hmul : dx * (1 - b) ≤ 0 :=
          mul_nonpos_of_nonneg_of_nonpos hdx (by omega)
        omega
      have hstepy : 2 * err ≤ dx → 1 ≤ b := by
        intro hcy
        by_contra hlt
        have hbz : b = 0 := by omega
        have hage : 1 ≤ a := by
          rcases Int.lt_or_le 0 a with hh | hh
          · omega
          · exact absurd ⟨by omega, hbz⟩ hnz
        have hid : 2 * err - dx = dx + 2 * (D * (a - 1)) := by
          rw [herr, hbz]
          ring
        have hmul : 0 ≤ D * (a - 1) := mul_nonneg hD (by omega)
        omega
      -- unfold one loop iteration
      simp only [drawLineAux]
      rw [if_neg hdone]
      by_cases hcx : -D ≤ 2 * err
      · have hage := hstepx hcx
        rw [if_pos hcx, if_pos hcx]
        have hax : sx * (x1 - (x0 + sx)) = a - 1 := by
          have : sx * (x1 - (x0 + sx)) = sx * (x1 - x0) - sx * sx := by ring
          rw [this, hsx2, ha]
        by_cases hcy : 2 * err ≤ dx
        · have hbge := hstepy hcy
          rw [if_pos hcy, if_pos hcy]
          have hby : sy * (y1 - (y0 + sy)) = b - 1 := by
            have : sy * (y1 - (y0 + sy)) = sy * (y1 - y0) - sy * sy := by ring
            rw [this, hsy2, hb]
          exact ih _ _ _ (a - 1) (b - 1) hax.symm hby.symm (by omega) (by omega)
            (by omega) (by omega) (by rw [herr]; ring) (by omega)
        · rw [if_neg hcy, if_neg hcy]
          exact ih _ _ _ (a - 1) b hax.symm hb (by omega) (by omega)
            hb0 hb1 (by rw [herr]; ring) (by omega)
      · have hcy : 2 * err ≤ dx := by omega
        have hbge := hstepy hcy
        rw [if_neg hcx, if_neg hcx, if_pos hcy, if_pos hcy]
        have hby : sy * (y1 - (y0 + sy)) = b - 1 := by
          have : sy * (y1 - (y0 + sy)) = sy * (y1 - y0) - sy * sy := by ring
          rw [this, hsy2, hb]
        exact ih _ _ _ a (b - 1) ha hby.symm ha0 ha1 (by omega) (by omega)
          (by rw [herr]; ring) (by omega)

/-- C9: the Bresenham loop of `draw_line` terminates for every pair of integer
endpoints and every thickness: the fuel bound `|x1-x0| + |y1-y0| + 1` always
suffices to reach the exit condition. -/
theorem draw_line_terminates (x0 y0 x1 y1 thickness : Int) :
    (draw_line x0 y0 x1 y1 thickness).2 = true := by
  unfold draw_line
  have habsx : (if x0 < x1 then (1 : Int) else -1) * (x1 - x0) = |x1 - x0| := by
    split
    · rename_i hlt
      rw [abs_of_nonneg (by omega)]
      ring
    · rename_i hge
      rw [abs_of_nonpos (by omega)]
      ring
  have habsy : (if y0 < y1 then (1 : Int) else -1) * (y1 - y0) = |y1 - y0| := by
    split
    · rename_i hlt
      rw [abs_of_nonneg (by omega)]
      ring
    · rename_i hge
      rw [abs_of_nonpos (by omega)]
      ring
  have htx : (|x1 - x0|).toNat = (x1 - x0).natAbs := by
    rw [Int.abs_eq_natAbs]
    exact Int.toNat_natCast _
  have hty : (|y1 - y0|).toNat = (y1 - y0).natAbs := by
    rw [Int.abs_eq_natAbs]
    exact Int.toNat_natCast _
  have hneg : -|y1 - y0| = -(|y1 - y0|) := rfl
  exact drawLineAux_completes x1 y1 _ _ (|x1 - x0|) (|y1 - y0|) _
    (by split <;> simp) (by split <;> simp) (abs_nonneg _) (abs_nonneg _)
    _ x0 y0 _ (|x1 - x0|) (|y1 - y0|)
    habsx.symm habsy.symm (abs_nonneg _) le_rfl (abs_nonneg _) le_rfl
    (by ring) (by omega)

theorem selStep_usable_conds (f : Flight) (rwy tol : ℚ)
    (h1 : ¬((!has_airline_info f) = true))
    (h2 : ¬(is_stationary_ground_target f = true))
    (h3 : ¬(is_taxiing_ground_target f rwy tol = true)) :
    usableCandidate f rwy tol = true := by
  have hA : has_airline_info f = true := by
    cases hA : has_airline_info f
    · exact absurd (by rw [hA]; rfl) h1
    · rfl
  simp only [Bool.not_eq_true] at h2 h3
  simp [usableCandidate, hA, h2, h3]

theorem selStep_good (dist : Flight → Option ℚ) (rwy tol : ℚ) (st : SelState) (f : Flight)
    (hg : selGood dist rwy tol st) : selGood dist rwy tol (selStep dist rwy tol st f) := by
  dsimp only [selStep]
  split
  · exact hg
  · split
    · exact hg
    · split
      · exact hg
      · rename_i h1 h2 h3
        split
        · exact hg
        · rename_i d hd
          split
          · exact Or.inr ⟨f, d, rfl, rfl, selStep_usable_conds f rwy tol h1 h2 h3, hd⟩
          · rename_i dmin hmin
            split
            · exact Or.inr ⟨f, d, rfl, rfl, selStep_usable_conds f rwy tol h1 h2 h3, hd⟩
            · rcases hg with ⟨hc, hm⟩ | ⟨g, e, hc, hm, hu, hde⟩
              · have hmin2 : st.minDist = some dmin := hmin
                rw [hm] at hmin2
                cases hmin2
              · exact Or.inr ⟨g, e, hc, hm, hu, hde⟩

theorem selStep_closest_none (dist : Flight → Option ℚ) (rwy tol : ℚ) (st : SelState)
    (f : Flight) (h : (selStep dist rwy tol st f).closest = none) : st.closest = none := by
  dsimp only [selStep] at h
  split at h
  · exact h
  · split at h
    · exact h
    · split at h
      · exact h
      · split at h
        · exact h
        · split at h
          · exact Option.noConfusion h
          · split at h
            · exact Option.noConfusion h
            · exact h

theorem selStep_closest_some (dist : Flight → Option ℚ) (rwy tol : ℚ) (st : SelState)
    (f g : Flight) (h : (selStep dist rwy tol st f).closest = some g) :
    g = f ∨ st.closest = some g := by
  dsimp only [selStep] at h
  split at h
  · exact Or.inr h
  · split at h
    · exact Or.inr h
    · split at h
      · exact Or.inr h
      · split at h
        · exact Or.inr h
        · split at h
          · exact Or.inl (Option.some.inj h).symm
          · split at h
            · exact Or.inl (Option.some.inj h).symm
            · exact Or.inr h

theorem selStep_min_mono (dist : Flight → Option ℚ) (rwy tol : ℚ) (st : SelState)
    (f : Flight) (d : ℚ) (h : st.minDist = some d) :
    ∃ e, (selStep dist rwy tol st f).minDist = some e ∧ e ≤ d := by
  obtain ⟨cl, md, t0, c1, c2, c3, c4, c5⟩ := st
  have h2 : md = some d := h
  subst h2
  dsimp only [selStep]
  split
  · exact ⟨d, rfl, le_rfl⟩
  · split
    · exact ⟨d, rfl, le_rfl⟩
    · split
      · exact ⟨d, rfl, le_rfl⟩
      · split
        · exact ⟨d, rfl, le_rfl⟩
        · rename_i dnew hd
          split
          · rename_i hlt
            exact ⟨dnew, rfl, hlt.le⟩
          · exact ⟨d, rfl, le_rfl⟩

theorem selStep_some_of_usable (dist : Flight → Option ℚ) (rwy tol : ℚ) (st : SelState)
    (f : Flight) (e : ℚ) (hg : selGood dist rwy tol st)
    (hu : usableCandidate f rwy tol = true) (hd : dist f = some e) :
    ∃ g, (selStep dist rwy tol st f).closest = some g := by
  have hA : has_airline_info f = true := by
    have := hu
    simp [usableCandidate, Bool.and_eq_true] at this
    exact this.1.1
  have hS : is_stationary_ground_target f = false := by
    have := hu
    simp [usableCandidate, Bool.and_eq_true] at this
    exact this.1.2
  have hT : is_taxiing_ground_target f rwy tol = false := by
    have := hu
    simp [usableCandidate, Bool.and_eq_true] at this
    exact this.2
  obtain ⟨cl, md, t0, c1, c2, c3, c4, c5⟩ := st
  rcases hg with ⟨hc, hm⟩ | ⟨g, dg, hc, hm, _, _⟩
  · have hc2 : cl = none := hc
    have hm2 : md = none := hm
    subst hc2
    subst hm2
    dsimp only [selStep]
    rw [if_neg (by simp [hA]), if_neg (by simp [hS]), if_neg (by simp [hT]), hd]
    dsimp only
    exact ⟨f, rfl⟩
  · have hc2 : cl = some g := hc
    have hm2 : md = some dg := hm
    subst hc2
    subst hm2
    dsimp only [selStep]
    rw [if_neg (by simp [hA]), if_neg (by simp [hS]), if_neg (by simp [hT]), hd]
    dsimp only
    by_cases hlt : e < dg
    · rw [if_pos hlt]
      exact ⟨f, rfl⟩
    · rw [if_neg hlt]
      exact ⟨g, rfl⟩

theorem selStep_min_head (dist : Flight → Option ℚ) (rwy tol : ℚ) (st : SelState)
    (f : Flight) (e : ℚ) (hu : usableCandidate f rwy tol = true) (hd : dist f = some e) :
    ∃ d, (selStep dist rwy tol st f).minDist = some d ∧ d ≤ e := by
  have hA : has_airline_info f = true := by
    have := hu
    simp [usableCandidate, Bool.and_eq_true] at this
    exact this.1.1
  have hS : is_stationary_ground_target f = false := by
    have := hu
    simp [usableCandidate, Bool.and_eq_true] at this
    exact this.1.2
  have hT : is_taxiing_ground_target f rwy tol = false := by
    have := hu
    simp [usableCandidate, Bool.and_eq_true] at this
    exact this.2
  obtain ⟨cl, md, t0, c1, c2, c3, c4, c5⟩ := st
  rcases md with _ | dmin
  · dsimp only [selStep]
    rw [if_neg (by simp [hA]), if_neg (by simp [hS]), if_neg (by simp [hT]), hd]
    dsimp only
    exact ⟨e, rfl, le_rfl⟩
  · dsimp only [selStep]
    rw [if_neg (by simp [hA]), if_neg (by simp [hS]), if_neg (by simp [hT]), hd]
    dsimp only
    by_cases hlt : e < dmin
    · rw [if_pos hlt]
      exact ⟨e, rfl, le_rfl⟩
    · rw [if_neg hlt]
      exact ⟨dmin, rfl, le_of_not_lt hlt⟩

theorem selFold_good (dist : Flight → Option ℚ) (rwy tol : ℚ) (l : List Flight)
    (st : SelState) (hg : selGood dist rwy tol st) :
    selGood dist rwy tol (l.foldl (selStep dist rwy tol) st) :=
  foldl_preserve (selGood dist rwy tol) _ l st hg
    (fun a b ha => selStep_good dist rwy tol a b ha)

theorem selFold_min_mono (dist : Flight → Option ℚ) (rwy tol : ℚ) (l : List Flight) :
    ∀ (st : SelState) (d : ℚ), st.minDist = some d →
      ∃ e, (l.foldl (selStep dist rwy tol) st).minDist = some e ∧ e ≤ d := by
  induction l with
  | nil => exact fun st d h => ⟨d, h, le_rfl⟩
  | cons x xs ih =>
    intro st d h
    obtain ⟨e, he, hle⟩ := selStep_min_mono dist rwy tol st x d h
    obtain ⟨e2, he2, hle2⟩ := ih (selStep dist rwy tol st x) e he
    exact ⟨e2, he2, le_trans hle2 hle⟩

theorem selFold_min_le (dist : Flight → Option ℚ) (rwy tol : ℚ) (l : List Flight) :
    ∀ (st : SelState) (g : Flight), g ∈ l → usableCandidate g rwy tol = true →
      ∀ e, dist g = some e →
        ∃ d, (l.foldl (selStep dist rwy tol) st).minDist = some d ∧ d ≤ e := by
  induction l with
  | nil => intro st g hg; cases hg
  | cons x xs ih =>
    intro st g hg hu e hd
    rcases List.mem_cons.1 hg with rfl | hmem
    · obtain ⟨d, hdm, hle⟩ := selStep_min_head dist rwy tol st g e hu hd
      obtain ⟨d2, hdm2, hle2⟩ := selFold_min_mono dist rwy tol xs _ d hdm
      exact ⟨d2, hdm2, le_trans hle2 hle⟩
    · exact ih _ g hmem hu e hd

theorem selFold_none_closest (dist : Flight → Option ℚ) (rwy tol : ℚ) (l : List Flight) :
    ∀ (st : SelState),
      (l.foldl (selStep dist rwy tol) st).closest = none → st.closest = none := by
  induction l with
  | nil => exact fun st h => h
  | cons x xs ih =>
    intro st h
    exact selStep_closest_none dist rwy tol st x (ih _ h)

theorem selFold_none_all (dist : Flight → Option ℚ) (rwy tol : ℚ) (l : List Flight) :
    ∀ (st : SelState), selGood dist rwy tol st →
      (l.foldl (selStep dist rwy tol) st).closest = none →
      ∀ g ∈ l, usableCandidate g rwy tol = true → dist g = none := by
  induction l with
  | nil => intro st _ _ g hg; cases hg
  | cons x xs ih =>
    intro st hgood h g hg hu
    rcases List.mem_cons.1 hg with rfl | hmem
    · by_contra hne
      rcases hop : dist g with _ | e
      · exact hne hop
      · obtain ⟨w, hw⟩ := selStep_some_of_usable dist rwy tol st g e hgood hu hop
        have hnone := selFold_none_closest dist rwy tol xs _ h
        rw [hw] at hnone
        cases hnone
    · exact ih _ (selStep_good dist rwy tol st x hgood) h g hmem hu

theorem selFold_none_of_all (dist : Flight → Option ℚ) (rwy tol : ℚ) (l : List Flight) :
    ∀ (st : SelState), st.closest = none → st.minDist = none →
      (∀ g ∈ l, usableCandidate g rwy tol = true → dist g = none) →
      (l.foldl (selStep dist rwy tol) st).closest = none := by
  induction l with
  | nil => exact fun st h _ _ => h
  | cons x xs ih =>
    intro st hc hm hall
    have hstep : (selStep dist rwy tol st x).closest = none ∧
        (selStep dist rwy tol st x).minDist = none := by
      dsimp only [selStep]
      split
      · exact ⟨hc, hm⟩
      · split
        · exact ⟨hc, hm⟩
        · split
          · exact ⟨hc, hm⟩
          · rename_i h1 h2 h3
            have hu := selStep_usable_conds x rwy tol h1 h2 h3
            have hdx := hall x (List.mem_cons_self x xs) hu
            split
            · exact ⟨hc, hm⟩
            · rename_i d hd
              rw [hdx] at hd
              cases hd
    exact ih _ hstep.1 hstep.2 (fun g hg => hall g (List.mem_cons_of_mem x hg))

theorem selFold_mem (dist : Flight → Option ℚ) (rwy tol : ℚ) (l : List Flight) :
    ∀ (st : SelState) (g : Flight),
      (l.foldl (selStep dist rwy tol) st).closest = some g →
      st.closest = some g ∨ g ∈ l := by
  induction l with
  | nil => exact fun st g h => Or.inl h
  | cons x xs ih =>
    intro st g h
    rcases ih _ g h with hstep | hmem
    · rcases selStep_closest_some dist rwy tol st x g hstep with rfl | hold
      · exact Or.inr (List.mem_cons_self g xs)
      · exact Or.inl hold
    · exact Or.inr (List.mem_cons_of_mem x hmem)

/-- C2: `choose_closest_flight` never returns a candidate without an airline
identifier, never a stationary ground candidate, never a non-runway-aligned
moving ground candidate; the winner is a listed candidate of minimum computed
distance among the surviving candidates, and the result is `none` exactly when
no surviving candidate has a computable distance.  The distance function is
abstract, standing for the float haversine computation. -/
theorem choose_closest_flight_spec (dist : Flight → Option ℚ) (flights : List Flight)
    (rwy tol : ℚ) :
    (∀ f, (choose_closest_flight dist flights rwy tol).1 = some f →
       has_airline_info f = true ∧ is_stationary_ground_target f = false ∧
       is_taxiing_ground_target f rwy tol = false ∧ f ∈ flights ∧
       ∃ d, dist f = some d ∧
         ∀ g ∈ flights, usableCandidate g rwy tol = true →
           ∀ e, dist g = some e → d ≤ e) ∧
    ((choose_closest_flight dist flights rwy tol).1 = none ↔
       ∀ g ∈ flights, usableCandidate g rwy tol = true → dist g = none) := by
  have hginit : selGood dist rwy tol initSelState := Or.inl ⟨rfl, rfl⟩
  have hgood := selFold_good dist rwy tol flights initSelState hginit
  constructor
  · intro f hf
    have hfc : (flights.foldl (selStep dist rwy tol) initSelState).closest = some f := hf
    rcases hgood with ⟨hc, _⟩ | ⟨g, d, hc, hm, hu, hd⟩
    · rw [hfc] at hc
      cases hc
    · rw [hfc] at hc
      cases hc
      have hu3 : has_airline_info f = true ∧ is_stationary_ground_target f = false ∧
          is_taxiing_ground_target f rwy tol = false := by
        have := hu
        simp [usableCandidate, Bool.and_eq_true] at this
        exact ⟨this.1.1, this.1.2, this.2⟩
      have hmem : f ∈ flights := by
        rcases selFold_mem dist rwy tol flights initSelState f hfc with hinit | hmem
        · cases hinit
        · exact hmem
      refine ⟨hu3.1, hu3.2.1, hu3.2.2, hmem, d, hd, ?_⟩
      intro g2 hg2 hu2 e2 he2
      obtain ⟨d2, hd2, hle2⟩ := selFold_min_le dist rwy tol flights initSelState g2 hg2 hu2 e2 he2
      rw [hm] at hd2
      cases hd2
      exact hle2
  · constructor
    · intro hnone
      exact selFold_none_all dist rwy tol flights initSelState hginit hnone
    · intro hall
      exact selFold_none_of_all dist rwy tol flights initSelState rfl rfl hall

/-- Witness for C2: with one airborne candidate at computable distance, the
selection returns that candidate and the minimality property holds for it. -/
theorem choose_closest_flight_spec_witness :
    has_airline_info ⟨some "BA", some 1000, some 250, none⟩ = true ∧
    is_stationary_ground_target ⟨some "BA", some 1000, some 250, none⟩ = false ∧
    is_taxiing_ground_target ⟨some "BA", some 1000, some 250, none⟩ 110 10 = false ∧
    (⟨some "BA", some 1000, some 250, none⟩ : Flight) ∈
      [(⟨some "BA", some 1000, some 250, none⟩ : Flight)] ∧
    ∃ d, (fun _ : Flight => some (5 : ℚ)) ⟨some "BA", some 1000, some 250, none⟩ = some d ∧
      ∀ g ∈ [(⟨some "BA", some 1000, some 250, none⟩ : Flight)],
        usableCandidate g 110 10 = true →
        ∀ e, (fun _ : Flight => some (5 : ℚ)) g = some e → d ≤ e :=
  (choose_closest_flight_spec (fun _ => some 5)
      [⟨some "BA", some 1000, some 250, none⟩] 110 10).1
    ⟨some "BA", some 1000, some 250, none⟩ (by decide)

theorem selStep_counters (dist : Flight → Option ℚ) (rwy tol : ℚ) (st : SelState) (f : Flight)
    (h : st.missing_airline + st.stationary_ground + st.taxiing_ground + st.usable = st.total ∧
         st.distance_error ≤ st.usable) :
    (selStep dist rwy tol st f).missing_airline + (selStep dist rwy tol st f).stationary_ground +
        (selStep dist rwy tol st f).taxiing_ground + (selStep dist rwy tol st f).usable =
      (selStep dist rwy tol st f).total ∧
    (selStep dist rwy tol st f).distance_error ≤ (selStep dist rwy tol st f).usable := by
  obtain ⟨hsum, hde⟩ := h
  dsimp only [selStep]
  split
  · exact ⟨by dsimp only; omega, by dsimp only; omega⟩
  · split
    · exact ⟨by dsimp only; omega, by dsimp only; omega⟩
    · split
      · exact ⟨by dsimp only; omega, by dsimp only; omega⟩
      · split
        · exact ⟨by dsimp only; omega, by dsimp only; omega⟩
        · split
          · exact ⟨by dsimp only; omega, by dsimp only; omega⟩
          · split
            · exact ⟨by dsimp only; omega, by dsimp only; omega⟩
            · exact ⟨by dsimp only; omega, by dsimp only; omega⟩

/-- C10: the statistics of `choose_closest_flight` always satisfy
`missing_airline + stationary_ground + taxiing_ground + usable = total`,
`distance_error ≤ usable`, and `selected_distance_km` is non-null exactly when
a winner is returned. -/
theorem choose_closest_flight_stats_invariant (dist : Flight → Option ℚ)
    (flights : List Flight) (rwy tol : ℚ) :
    (choose_closest_flight dist flights rwy tol).2.missing_airline +
        (choose_closest_flight dist flights rwy tol).2.stationary_ground +
        (choose_closest_flight dist flights rwy tol).2.taxiing_ground +
        (choose_closest_flight dist flights rwy tol).2.usable =
      (choose_closest_flight dist flights rwy tol).2.total ∧
    (choose_closest_flight dist flights rwy tol).2.distance_error ≤
      (choose_closest_flight dist flights rwy tol).2.usable ∧
    ((choose_closest_flight dist flights rwy tol).2.selected_distance_km.isSome ↔
      (choose_closest_flight dist flights rwy tol).1.isSome) := by
  have hcnt := foldl_preserve
    (fun st : SelState =>
      st.missing_airline + st.stationary_ground + st.taxiing_ground + st.usable = st.total ∧
      st.distance_error ≤ st.usable)
    (selStep dist rwy tol) flights initSelState ⟨rfl, le_rfl⟩
    (fun a b ha => selStep_counters dist rwy tol a b ha)
  have hgood := selFold_good dist rwy tol flights initSelState (Or.inl ⟨rfl, rfl⟩)
  refine ⟨hcnt.1, hcnt.2, ?_⟩
  rcases hgood with ⟨hc, hm⟩ | ⟨g, d, hc, hm, _, _⟩
  · simp [choose_closest_flight, hc, hm]
  · simp [choose_closest_flight, hc, hm]

/-- C3 (amended): with a nonnegative floor not above the ceiling, the no-data
retry delay stays in `[floor, ceiling]` across every completed cycle; a
no-candidate cycle that completes without a render exception (equivalently,
without a reconnect) sleeps for `max(backoff, cooldown)` and then doubles the
backoff up to the ceiling; any cycle that observed a flight candidate leaves
the backoff at the floor. -/
theorem no_data_backoff_claim (cfg : CSettings) (st : CState) (env : CycleEnv)
    (st' : CState) (effs : List Effect)
    (hfloor0 : 0 ≤ cfg.noFlightRetrySeconds)
    (hfc : cfg.noFlightRetrySeconds ≤ cfg.noFlightMaxRetrySeconds)
    (hlo : cfg.noFlightRetrySeconds ≤ st.noDataRetrySeconds)
    (hhi : st.noDataRetrySeconds ≤ cfg.noFlightMaxRetrySeconds)
    (hrun : run_once cfg st env = .ok (st', effs)) :
    (cfg.noFlightRetrySeconds ≤ st'.noDataRetrySeconds ∧
     st'.noDataRetrySeconds ≤ cfg.noFlightMaxRetrySeconds) ∧
    (env.flight = none → Effect.reconnectDevice ∉ effs →
      Effect.sleepFor (max st.noDataRetrySeconds env.cooldown) ∈ effs ∧
      st'.noDataRetrySeconds = min (st.noDataRetrySeconds * 2) cfg.noFlightMaxRetrySeconds) ∧
    (∀ p, env.flight = some p → st'.noDataRetrySeconds = cfg.noFlightRetrySeconds) := by
  dsimp only [run_once] at hrun
  split at hrun
  · -- device unreachable: reconnect + full tracking reset
    cases hrun
    refine ⟨⟨le_rfl, hfc⟩, ?_, fun p hp => rfl⟩
    intro _ hmem
    simp at hmem
  · split at hrun
    · -- flight candidate branch
      rename_i p hp
      have hnone : ¬env.flight = none := by rw [hp]; exact fun h => Option.noConfusion h
      split at hrun
      · split at hrun
        · cases hrun
          exact ⟨⟨le_rfl, hfc⟩, fun h => absurd h hnone, fun q hq => rfl⟩
        · split at hrun
          · cases hrun
            exact ⟨⟨le_rfl, hfc⟩, fun h => absurd h hnone, fun q hq => rfl⟩
          · cases hrun
            exact ⟨⟨le_rfl, hfc⟩, fun h => absurd h hnone, fun q hq => rfl⟩
      · cases hrun
        exact ⟨⟨le_rfl, hfc⟩, fun h => absurd h hnone, fun q hq => rfl⟩
    · -- no candidate branch
      rename_i hp
      have hsomef : ∀ q, ¬env.flight = some q := by
        rw [hp]
        exact fun q h => Option.noConfusion h
      split at hrun
      · -- same state
        split at hrun
        · -- weather tick with refresh
          split at hrun
          · -- tick raised
            split at hrun
            · cases hrun
            · cases hrun
              refine ⟨⟨le_rfl, hfc⟩, ?_, fun q hq => absurd hq (hsomef q)⟩
              intro _ hmem
              simp at hmem
          · -- tick ok
            cases hrun
            refine ⟨⟨by dsimp only; omega, by dsimp only; omega⟩, ?_,
              fun q hq => absurd hq (hsomef q)⟩
            intro _ _
            exact ⟨by simp, rfl⟩
        · -- same state, no weather redraw
          cases hrun
          refine ⟨⟨by dsimp only; omega, by dsimp only; omega⟩, ?_,
            fun q hq => absurd hq (hsomef q)⟩
          intro _ _
          exact ⟨by simp, rfl⟩
      · -- state transition
        split at hrun
        · -- transition raised
          split at hrun
          · cases hrun
          · cases hrun
            refine ⟨⟨le_rfl, hfc⟩, ?_, fun q hq => absurd hq (hsomef q)⟩
            intro _ hmem
            simp at hmem
        · -- transition ok
          cases hrun
          refine ⟨⟨by dsimp only; omega, by dsimp only; omega⟩, ?_,
            fun q hq => absurd hq (hsomef q)⟩
          intro _ _
          exact ⟨by simp, rfl⟩

/-- Witness for C3: a holding-mode no-flight cycle at floor 15 (ceiling 120)
sleeps 15 and doubles the backoff to 30. -/
theorem no_data_backoff_claim_witness :
    ((15 : Int) ≤ 30 ∧ (30 : Int) ≤ 120) ∧
    ((none : Option FPayload) = none →
      Effect.reconnectDevice ∉ ([.sleepFor 15] : List Effect) →
      Effect.sleepFor (max 15 0) ∈ ([.sleepFor 15] : List Effect) ∧
      (30 : Int) = min (15 * 2) 120) ∧
    (∀ p : FPayload, (none : Option FPayload) = some p → (30 : Int) = 15) :=
  no_data_backoff_claim
    { dataRefreshSeconds := 60, noFlightRetrySeconds := 15,
      noFlightMaxRetrySeconds := 120, idleModeWeather := false }
    { currentState := some RenderState.idleHolding, currentFlightId := none,
      currentFlightSig := none, noDataRetrySeconds := 15 }
    { reachable := true, flight := none, cooldown := 0, apiError := none,
      animationOutcome := .ok, transitionOutcome := .ok, tickOutcome := .ok,
      tickRefreshed := false }
    { currentState := some RenderState.idleHolding, currentFlightId := none,
      currentFlightSig := none, noDataRetrySeconds := 30 }
    [.sleepFor 15]
    (by decide) (by decide) (by decide) (by decide) rfl

/-- C3 counterexample: with only `floor ≤ ceiling` assumed (floor `-4`,
ceiling `10`), a single empty cycle starting at the floor drives the backoff
to `-8`, outside `[floor, ceiling]` — the claimed bound needs `0 ≤ floor`. -/
theorem no_data_backoff_negative_floor_counterexample :
    (-4 : Int) ≤ 10 ∧
    run_once
      { dataRefreshSeconds := 60, noFlightRetrySeconds := -4,
        noFlightMaxRetrySeconds := 10, idleModeWeather := false }
      { currentState := some RenderState.idleHolding, currentFlightId := none,
        currentFlightSig := none, noDataRetrySeconds := -4 }
      { reachable := true, flight := none, cooldown := 0, apiError := none,
        animationOutcome := .ok, transitionOutcome := .ok, tickOutcome := .ok,
        tickRefreshed := false } =
      .ok ({ currentState := some RenderState.idleHolding, currentFlightId := none,
             currentFlightSig := none, noDataRetrySeconds := -8 },
           [.sleepFor 0]) ∧
    ¬((-4 : Int) ≤ -8) := by
  refine ⟨by norm_num, rfl, by norm_num⟩

/-- C1 (code evaluated at the failing input): on a cycle that finds a flight
whose id differs from the tracked id (here: fresh tracking state, new flight
`abc123`), `run_once` performs zero `build_and_send_animation` calls and
leaves the tracked identity and signature unrecorded, because the redraw
block is nested under the id-match test. -/
theorem run_once_new_flight_skips_redraw :
    (some "abc123" : Option String) ≠ none ∧
    run_once
      { dataRefreshSeconds := 60, noFlightRetrySeconds := 15,
        noFlightMaxRetrySeconds := 120, idleModeWeather := true }
      { currentState := none, currentFlightId := none, currentFlightSig := none,
        noDataRetrySeconds := 15 }
      { reachable := true,
        flight := some { icao24 := some "abc123", altitude := some 12000,
                         ground_speed := some 250, heading := some 90,
                         status := some "CLIMB" },
        cooldown := 0, apiError := none, animationOutcome := .ok,
        transitionOutcome := .ok, tickOutcome := .ok, tickRefreshed := false } =
      .ok ({ currentState := some RenderState.flightActive, currentFlightId := none,
             currentFlightSig := none, noDataRetrySeconds := 15 },
           [.sleepFor 60]) ∧
    animationCalls [.sleepFor 60] = 0 := by
  refine ⟨by decide, rfl, by decide⟩

theorem gcwo_hit (rs : Int) (st : WState) (force : Bool) (now : ℚ) (fetch : FetchOutcome)
    (h : (!force) = true ∧ st.cache.isSome = true ∧ now - st.cacheAt < (rs : ℚ)) :
    get_current_with_options rs st force now fetch =
      ((st.cache.getD fallback_payload, false), st) := by
  unfold get_current_with_options
  rw [if_pos h]

theorem gcwo_miss_ok (rs : Int) (st : WState) (force : Bool) (now : ℚ)
    (p : WPayload) (pe : Option String)
    (h : ¬((!force) = true ∧ st.cache.isSome = true ∧ now - st.cacheAt < (rs : ℚ))) :
    get_current_with_options rs st force now (.ok p pe) =
      ((p, true), { cache := some p, cacheAt := now, lastError := pe }) := by
  unfold get_current_with_options
  rw [if_neg h]

theorem gcwo_miss_raised_cached (rs : Int) (st : WState) (force : Bool) (now : ℚ)
    (m : String) (c : WPayload) (hc : st.cache = some c)
    (h : ¬((!force) = true ∧ st.cache.isSome = true ∧ now - st.cacheAt < (rs : ℚ))) :
    get_current_with_options rs st force now (.raised m) =
      ((c, false), { st with lastError := some ("Weather provider error: " ++ m) }) := by
  obtain ⟨cache, cat, le⟩ := st
  have hc2 : cache = some c := hc
  subst hc2
  unfold get_current_with_options
  rw [if_neg h]

theorem gcwo_miss_empty_cached (rs : Int) (st : WState) (force : Bool) (now : ℚ)
    (c : WPayload) (hc : st.cache = some c)
    (h : ¬((!force) = true ∧ st.cache.isSome = true ∧ now - st.cacheAt < (rs : ℚ))) :
    get_current_with_options rs st force now .empty =
      ((c, false), { st with lastError := some "Weather provider returned no data" }) := by
  obtain ⟨cache, cat, le⟩ := st
  have hc2 : cache = some c := hc
  subst hc2
  unfold get_current_with_options
  rw [if_neg h]

theorem gcwo_miss_raised_uncached (rs : Int) (st : WState) (force : Bool) (now : ℚ)
    (m : String) (hc : st.cache = none)
    (h : ¬((!force) = true ∧ st.cache.isSome = true ∧ now - st.cacheAt < (rs : ℚ))) :
    get_current_with_options rs st force now (.raised m) =
      ((fallback_payload, true),
       { cache := some fallback_payload, cacheAt := now,
         lastError := some ("Weather provider error: " ++ m) }) := by
  obtain ⟨cache, cat, le⟩ := st
  have hc2 : cache = none := hc
  subst hc2
  unfold get_current_with_options
  rw [if_neg h]

theorem gcwo_miss_empty_uncached (rs : Int) (st : WState) (force : Bool) (now : ℚ)
    (hc : st.cache = none)
    (h : ¬((!force) = true ∧ st.cache.isSome = true ∧ now - st.cacheAt < (rs : ℚ))) :
    get_current_with_options rs st force now .empty =
      ((fallback_payload, true),
       { cache := some fallback_payload, cacheAt := now,
         lastError := some "Weather provider returned no data" }) := by
  obtain ⟨cache, cat, le⟩ := st
  have hc2 : cache = none := hc
  subst hc2
  unfold get_current_with_options
  rw [if_neg h]

/-- C4: on a freshly constructed cache the first `get_current` call queries the
provider and reports `refreshed = true`; an immediately following call within
the TTL returns the cached payload with `refreshed = false`, leaves the state
untouched and is independent of the provider (any two fetch outcomes give the
same result); `get_current_with_options(force_refresh := true)` takes the
provider path regardless of cache age. -/
theorem weather_cache_refresh_spec (rs : Int) (now1 now2 : ℚ)
    (f1 f2 f2' : FetchOutcome)
    (hage : now2 - now1 < (rs : ℚ)) :
    ((get_current_with_options rs initWeatherState false now1 f1).1.2 = true) ∧
    (∃ c, (get_current_with_options rs initWeatherState false now1 f1).2.cache = some c ∧
      (get_current_with_options rs initWeatherState false now1 f1).2.cacheAt = now1 ∧
      get_current_with_options rs
          (get_current_with_options rs initWeatherState false now1 f1).2 false now2 f2 =
        ((c, false), (get_current_with_options rs initWeatherState false now1 f1).2) ∧
      get_current_with_options rs
          (get_current_with_options rs initWeatherState false now1 f1).2 false now2 f2 =
        get_current_with_options rs
          (get_current_with_options rs initWeatherState false now1 f1).2 false now2 f2') ∧
    (∀ (st : WState) (now : ℚ) (p : WPayload) (pe : Option String),
      get_current_with_options rs st true now (.ok p pe) =
        ((p, true), { cache := some p, cacheAt := now, lastError := pe })) := by
  have hmiss1 : ¬((!false) = true ∧ (initWeatherState).cache.isSome = true ∧
      now1 - (initWeatherState).cacheAt < (rs : ℚ)) := by
    intro hcon
    exact Bool.noConfusion hcon.2.1
  have hsecond : ∀ (st1 : WState) (c : WPayload), st1.cache = some c → st1.cacheAt = now1 →
      ∀ g : FetchOutcome,
        get_current_with_options rs st1 false now2 g = ((c, false), st1) := by
    intro st1 c hc hat g
    have hhit : (!false) = true ∧ st1.cache.isSome = true ∧
        now2 - st1.cacheAt < (rs : ℚ) := by
      refine ⟨rfl, by rw [hc]; rfl, by rw [hat]; exact hage⟩
    rw [gcwo_hit rs st1 false now2 g hhit, hc]
    rfl
  refine ⟨?_, ?_, ?_⟩
  · rcases f1 with ⟨p, pe⟩ | _ | m
    · rw [gcwo_miss_ok rs initWeatherState false now1 p pe hmiss1]
    · rw [gcwo_miss_empty_uncached rs initWeatherState false now1 rfl hmiss1]
    · rw [gcwo_miss_raised_uncached rs initWeatherState false now1 m rfl hmiss1]
  · rcases f1 with ⟨p, pe⟩ | _ | m
    · rw [gcwo_miss_ok rs initWeatherState false now1 p pe hmiss1]
      exact ⟨p, rfl, rfl, hsecond _ p rfl rfl f2,
        by rw [hsecond _ p rfl rfl f2, hsecond _ p rfl rfl f2']⟩
    · rw [gcwo_miss_empty_uncached rs initWeatherState false now1 rfl hmiss1]
      exact ⟨fallback_payload, rfl, rfl, hsecond _ fallback_payload rfl rfl f2,
        by rw [hsecond _ fallback_payload rfl rfl f2, hsecond _ fallback_payload rfl rfl f2']⟩
    · rw [gcwo_miss_raised_uncached rs initWeatherState false now1 m rfl hmiss1]
      exact ⟨fallback_payload, rfl, rfl, hsecond _ fallback_payload rfl rfl f2,
        by rw [hsecond _ fallback_payload rfl rfl f2, hsecond _ fallback_payload rfl rfl f2']⟩
  · intro st now p pe
    refine gcwo_miss_ok rs st true now p pe ?_
    intro hcon
    exact Bool.noConfusion hcon.1

/-- Witness for C4 at TTL 900, first call at time 0, second call at time 1. -/
theorem weather_cache_refresh_spec_witness :
    ((get_current_with_options 900 initWeatherState false 0
        (.ok fallback_payload none)).1.2 = true) ∧
    (∃ c, (get_current_with_options 900 initWeatherState false 0
          (.ok fallback_payload none)).2.cache = some c ∧
      (get_current_with_options 900 initWeatherState false 0
          (.ok fallback_payload none)).2.cacheAt = 0 ∧
      get_current_with_options 900
          (get_current_with_options 900 initWeatherState false 0
            (.ok fallback_payload none)).2 false 1 .empty =
        ((c, false), (get_current_with_options 900 initWeatherState false 0
            (.ok fallback_payload none)).2) ∧
      get_current_with_options 900
          (get_current_with_options 900 initWeatherState false 0
            (.ok fallback_payload none)).2 false 1 .empty =
        get_current_with_options 900
          (get_current_with_options 900 initWeatherState false 0
            (.ok fallback_payload none)).2 false 1 (.raised "boom")) ∧
    (∀ (st : WState) (now : ℚ) (p : WPayload) (pe : Option String),
      get_current_with_options 900 st true now (.ok p pe) =
        ((p, true), { cache := some p, cacheAt := now, lastError := pe })) :=
  weather_cache_refresh_spec 900 0 1 (.ok fallback_payload none) .empty (.raised "boom")
    (by norm_num)

/-- C5 (amended): on a failed or empty fetch with a cached snapshot, the cached
payload is returned unchanged with `refreshed = false` and the error string is
recorded; with no prior cache a deterministic fallback snapshot is produced and
cached whose measurement fields are all null, whose condition is
`"SET PROVIDER"`, location `"LOCAL WX"`, source `"scaffold"`. -/
theorem weather_fetch_failure_spec (rs : Int) (st : WState) (now : ℚ) (force : Bool)
    (m : String)
    (hmiss : ¬((!force) = true ∧ st.cache.isSome = true ∧
        now - st.cacheAt < (rs : ℚ))) :
    (∀ c, st.cache = some c →
      get_current_with_options rs st force now (.raised m) =
        ((c, false), { st with lastError := some ("Weather provider error: " ++ m) }) ∧
      get_current_with_options rs st force now .empty =
        ((c, false), { st with lastError := some "Weather provider returned no data" })) ∧
    (st.cache = none →
      get_current_with_options rs st force now (.raised m) =
        ((fallback_payload, true),
         { cache := some fallback_payload, cacheAt := now,
           lastError := some ("Weather provider error: " ++ m) }) ∧
      get_current_with_options rs st force now .empty =
        ((fallback_payload, true),
         { cache := some fallback_payload, cacheAt := now,
           lastError := some "Weather provider returned no data" })) ∧
    fallback_payload.temperature_c = none ∧ fallback_payload.humidity_pct = none ∧
    fallback_payload.wind_kph = none ∧ fallback_payload.wind_dir_deg = none ∧
    fallback_payload.wind_dir_from = none ∧ fallback_payload.wind_dir_to = none ∧
    fallback_payload.condition = some "SET PROVIDER" ∧
    fallback_payload.location = some "LOCAL WX" ∧
    fallback_payload.source = some "scaffold" := by
  refine ⟨?_, ?_, rfl, rfl, rfl, rfl, rfl, rfl, rfl, rfl, rfl⟩
  · intro c hc
    exact ⟨gcwo_miss_raised_cached rs st force now m c hc hmiss,
      gcwo_miss_empty_cached rs st force now c hc hmiss⟩
  · intro hc
    exact ⟨gcwo_miss_raised_uncached rs st force now m hc hmiss,
      gcwo_miss_empty_uncached rs st force now hc hmiss⟩

/-- Witness for C5: expired cache at time 1000 (TTL 900) with a failing fetch
returns the cached snapshot unchanged and records the error. -/
theorem weather_fetch_failure_spec_witness :
    get_current_with_options 900
        { cache := some fallback_payload, cacheAt := 0, lastError := none }
        false 1000 (.raised "boom") =
      ((fallback_payload, false),
       { cache := some fallback_payload, cacheAt := 0,
         lastError := some ("Weather provider error: " ++ "boom") }) ∧
    get_current_with_options 900
        { cache := some fallback_payload, cacheAt := 0, lastError := none }
        false 1000 .empty =
      ((fallback_payload, false),
       { cache := some fallback_payload, cacheAt := 0,
         lastError := some "Weather provider returned no data" }) :=
  (weather_fetch_failure_spec 900
      { cache := some fallback_payload, cacheAt := 0, lastError := none }
      1000 false "boom"
      (by intro hcon; norm_num at hcon)).1
    fallback_payload rfl

/-- C5 counterexample: with no prior cache and a failing fetch, the produced
fallback snapshot's condition is `"SET PROVIDER"`, not `"no provider data"`,
and its location and source fields are not null. -/
theorem weather_fallback_counterexample :
    (get_current_with_options 900 initWeatherState false 0 (.raised "boom")).1.1.condition =
      some "SET PROVIDER" ∧
    (get_current_with_options 900 initWeatherState false 0 (.raised "boom")).1.1.condition ≠
      some "no provider data" ∧
    (get_current_with_options 900 initWeatherState false 0 (.raised "boom")).1.1.location ≠
      none ∧
    (get_current_with_options 900 initWeatherState false 0 (.raised "boom")).1.1.source ≠
      none := by
  have h := gcwo_miss_raised_uncached 900 initWeatherState false 0 "boom" rfl
    (by intro hcon; exact Bool.noConfusion hcon.2.1)
  rw [h]
  refine ⟨rfl, by decide, by decide, by decide⟩

end PixooRadar
